import Mathlib

set_option maxRecDepth 8192

/-!
Shallow embedding of the modbius-core crate (a byte-level Modbus PDU codec).

Bytes are modelled as `Nat` values (each intended `< 256`, as the source type
is `u8`); 16-bit fields are `Nat` values (intended `< 65536`, source type
`u16`).  Where the source relies on the Rust integer type to bound a value
that is produced by a cast (`as u16`, `as u8`), the embedding applies the
corresponding `% 65536` / `% 256` reduction explicitly.  Byte buffers are
`List Nat`; in-place mutation of an output buffer is modelled by returning
the new buffer contents alongside the operation's result.

The crate contains two historical revisions of some modules.  Both are
embedded where a claim depends on them:
  - `functions.rs` (namespace `FunctionsRs`) and `function.rs`
    (namespace `FunctionRs`) for the function-code classifier;
  - `requests/read.rs` (`ReadRequest.from_data`) and `request/read.rs`
    (`ReadRequest.from_modbus_data`) for the read-request family.
-/

namespace Modbius

/-- Embeds `ModbusSerializationError` from `error.rs`.  The `InvalidValue`
kind is the variant referenced by `bitstate.rs` (spec section 4.1 groups
`Invalid`/`InvalidValue` as one family of value errors). -/
inductive ModbusSerializationError where
  | UnexpectedEOF (expected got : Nat)
  | InsufficientBuffer (expected got : Nat)
  | Invalid
  | InvalidValue
  | TooLarge
  | Ambivalent
  | Overflow
deriving DecidableEq, Repr

/-- Embeds `u16::from_be_bytes([hi, lo])` for byte values `hi lo : Nat`. -/
def u16_from_be (hi lo : Nat) : Nat :=
  hi * 256 + lo

/-- Embeds `u16::to_be_bytes` for a value of Rust type `u16`; the `% 65536`
records the type bound of the source value. -/
def u16_to_be_hi (v : Nat) : Nat := v % 65536 / 256

/-- Low byte of `u16::to_be_bytes`. -/
def u16_to_be_lo (v : Nat) : Nat := v % 256

/-- Embeds `util::read_u16_unchecked`: big-endian word from the first two
bytes plus the remainder `data[2..]`.  The source is only invoked on buffers
of length at least 2; the `getD` defaults are never reached on those. -/
def read_u16_unchecked (data : List Nat) : Nat × List Nat :=
  (u16_from_be (data.getD 0 0) (data.getD 1 0), data.drop 2)

/-- Embeds `util::read_u16` from `util.rs`. -/
def read_u16 (data : List Nat) : Except ModbusSerializationError (Nat × List Nat) :=
  if data.length < 2 then
    Except.error (ModbusSerializationError.UnexpectedEOF 2 data.length)
  else
    Except.ok (read_u16_unchecked data)

/-- Embeds `util::write_addr_quantity_unchecked`: stores the big-endian
bytes of `addr` at positions 0,1 and of `quantity` at positions 2,3 of the
output buffer. -/
def write_addr_quantity_unchecked (addr quantity : Nat) (out : List Nat) : List Nat :=
  ((((out.set 0 (u16_to_be_hi addr)).set 1 (u16_to_be_lo addr)).set 2
      (u16_to_be_hi quantity)).set 3 (u16_to_be_lo quantity))

/-- Embeds `util::write_addr_quantity` from `util.rs`: the checked encoder
returns its result together with the final contents of the output buffer. -/
def write_addr_quantity (addr quantity : Nat) (out : List Nat) :
    Except ModbusSerializationError Unit × List Nat :=
  if out.length < 4 then
    (Except.error (ModbusSerializationError.InsufficientBuffer 4 out.length), out)
  else
    (Except.ok (), write_addr_quantity_unchecked addr quantity out)

/-- Embeds `RegisterSlice` from `registerslice.rs`: a borrowed byte buffer
viewed as big-endian 16-bit words. -/
structure RegisterSlice where
  bytes : List Nat
deriving DecidableEq, Repr

/-- Embeds `RegisterSlice::new`: construction fails with `Invalid` when the
byte length is odd. -/
def RegisterSlice.new (bytes : List Nat) :
    Except ModbusSerializationError RegisterSlice :=
  if bytes.length % 2 = 0 then
    Except.ok ⟨bytes⟩
  else
    Except.error ModbusSerializationError.Invalid

/-- Embeds `RegisterSlice::len` (register count, byte length halved). -/
def RegisterSlice.len (r : RegisterSlice) : Nat :=
  r.bytes.length / 2

/-- Embeds `RegisterSlice::bytes_len`. -/
def RegisterSlice.bytes_len (r : RegisterSlice) : Nat :=
  r.bytes.length

/-- Embeds `RegisterSlice::get`: checked big-endian word lookup. -/
def RegisterSlice.get (r : RegisterSlice) (idx : Nat) : Option Nat :=
  if (idx + 1) * 2 ≤ r.bytes.length then
    some (u16_from_be (r.bytes.getD (idx * 2) 0) (r.bytes.getD (idx * 2 + 1) 0))
  else
    none

/-- Embeds Rust `data.get(s..e)` on a byte slice: `some` of the subslice
when `s ≤ e` and `e ≤ data.len()`, otherwise `none`. -/
def sliceRange (data : List Nat) (s e : Nat) : Option (List Nat) :=
  if s ≤ e ∧ e ≤ data.length then
    some ((data.drop s).take (e - s))
  else
    none

/-- Embeds writing `src` into `out[s..e]` (Rust
`out[s..e].copy_from_slice(src)`); the source panics unless
`src.len() = e - s`, which holds on every checked call path. -/
def copyFromSlice (out : List Nat) (s e : Nat) (src : List Nat) : List Nat :=
  out.take s ++ src ++ out.drop e

/-- Embeds the `WriteMultipleRegisters` request struct from
`write/multiple_registers.rs`. -/
structure WriteMultipleRegisters where
  addr : Nat
  registers : RegisterSlice
deriving DecidableEq, Repr

/-- Constant `WriteMultipleRegisters::MODBUS_FUNCTION_CODE as u8` (16). -/
def WriteMultipleRegisters.FUNCTION_CODE : Nat := 16

/-- Constant `WriteMultipleRegisters::MIN_INPUT_SIZE`. -/
def WriteMultipleRegisters.MIN_INPUT_SIZE : Nat := 7

/-- Constant `WriteMultipleRegisters::HEADER_SIZE`. -/
def WriteMultipleRegisters.HEADER_SIZE : Nat := 6

/-- Embeds `WriteMultipleRegisters::new`: validates register count (nonzero,
at most 123) and that `addr + count` does not overflow the u16 range
(`addr.overflowing_add(n as u16).1` for `addr : u16` is `addr + n > 65535`). -/
def WriteMultipleRegisters.new (addr : Nat) (registers : RegisterSlice) :
    Except ModbusSerializationError WriteMultipleRegisters :=
  if registers.len = 0 then
    Except.error ModbusSerializationError.Invalid
  else if registers.len > 123 then
    Except.error ModbusSerializationError.TooLarge
  else if addr + registers.len > 65535 then
    Except.error ModbusSerializationError.Overflow
  else
    Except.ok ⟨addr, registers⟩

/-- Embeds `WriteMultipleRegisters::from_data_unchecked`: reads address and
quantity, checks the declared byte count against the quantity, slices the
payload, and defers to `RegisterSlice.new` and `WriteMultipleRegisters.new`. -/
def WriteMultipleRegisters.from_data_unchecked (data : List Nat) :
    Except ModbusSerializationError WriteMultipleRegisters :=
  let p1 := read_u16_unchecked data
  let addr := p1.1
  let p2 := read_u16_unchecked p1.2
  let quantity := p2.1
  let data2 := p2.2
  let nbytes := data2.getD 0 0
  if nbytes / 2 ≠ quantity then
    Except.error ModbusSerializationError.Ambivalent
  else
    match sliceRange data2 1 (nbytes + 1) with
    | some payload =>
        match RegisterSlice.new payload with
        | Except.ok registers => WriteMultipleRegisters.new addr registers
        | Except.error e => Except.error e
    | none =>
        Except.error (ModbusSerializationError.UnexpectedEOF
          (nbytes + WriteMultipleRegisters.HEADER_SIZE - 1)
          (WriteMultipleRegisters.HEADER_SIZE - 1 + data2.length - 1))

/-- Embeds `WriteMultipleRegisters::from_data`: length precheck then the
unchecked parser. -/
def WriteMultipleRegisters.from_data (data : List Nat) :
    Except ModbusSerializationError WriteMultipleRegisters :=
  if data.length < WriteMultipleRegisters.MIN_INPUT_SIZE then
    Except.error (ModbusSerializationError.UnexpectedEOF
      WriteMultipleRegisters.MIN_INPUT_SIZE data.length)
  else
    WriteMultipleRegisters.from_data_unchecked data

/-- Embeds `WriteMultipleRegisters::data_size`. -/
def WriteMultipleRegisters.data_size (w : WriteMultipleRegisters) : Nat :=
  w.registers.bytes_len + WriteMultipleRegisters.HEADER_SIZE

/-- Embeds `WriteMultipleRegisters::write_to_slice_unchecked`: function code
byte, big-endian address, big-endian quantity (`registers.len() as u16`),
byte count (`bytes_len() as u8`), then the raw register bytes. -/
def WriteMultipleRegisters.write_to_slice_unchecked
    (w : WriteMultipleRegisters) (out : List Nat) : List Nat :=
  let out1 := out.set 0 WriteMultipleRegisters.FUNCTION_CODE
  let out2 := (out1.set 1 (u16_to_be_hi w.addr)).set 2 (u16_to_be_lo w.addr)
  let quantity := w.registers.len % 65536
  let out3 := (out2.set 3 (u16_to_be_hi quantity)).set 4 (u16_to_be_lo quantity)
  let nbytes := w.registers.bytes_len % 256
  let out4 := out3.set 5 nbytes
  copyFromSlice out4 WriteMultipleRegisters.HEADER_SIZE (nbytes + 6) w.registers.bytes

/-- Embeds `WriteMultipleRegisters::write_to_slice`: checked encoder
returning the result together with the final buffer contents. -/
def WriteMultipleRegisters.write_to_slice
    (w : WriteMultipleRegisters) (out : List Nat) :
    Except ModbusSerializationError Unit × List Nat :=
  if out.length < w.data_size then
    (Except.error (ModbusSerializationError.InsufficientBuffer w.data_size out.length), out)
  else
    (Except.ok (), w.write_to_slice_unchecked out)

/-- Embeds the read-request payload shared by the four structurally
identical request types of the read family (`ReadCoils`,
`ReadDiscreteInputs`, `ReadHoldingRegisters`, `ReadInputRegisters`).  The
macro-generated types differ only in the attached `MODBUS_FUNCTION_CODE`
constant, which does not enter the parse functions embedded below. -/
structure ReadRequest where
  addr : Nat
  quantity : Nat
deriving DecidableEq, Repr

/-- Embeds `util::read_addr_quantity_unchecked`: two successive big-endian
16-bit reads. -/
def read_addr_quantity_unchecked (data : List Nat) : Nat × Nat × List Nat :=
  let p1 := read_u16_unchecked data
  let p2 := read_u16_unchecked p1.2
  (p1.1, p2.1, p2.2)

/-- Embeds `from_data` of the `read_req!` macro in `requests/read.rs`:
length precheck, then address and quantity with the tail returned. -/
def ReadRequest.from_data (data : List Nat) :
    Except ModbusSerializationError (ReadRequest × List Nat) :=
  if data.length < 4 then
    Except.error (ModbusSerializationError.UnexpectedEOF 4 data.length)
  else
    let t := read_addr_quantity_unchecked data
    Except.ok (⟨t.1, t.2.1⟩, t.2.2)

/-- Embeds `from_modbus_data` of the `read_request!` macro in
`request/read.rs`: parses via `AddrQuantity::from_modbus_data_unchecked`
(bytes 0-1 address, bytes 2-3 quantity, tail `data[4..]`), returning the
request only when at least 4 bytes are present and the quantity is
positive; otherwise no request and the whole input as tail. -/
def ReadRequest.from_modbus_data (data : List Nat) :
    Option ReadRequest × Option (List Nat) :=
  let me : ReadRequest :=
    ⟨u16_from_be (data.getD 0 0) (data.getD 1 0),
     u16_from_be (data.getD 2 0) (data.getD 3 0)⟩
  if 4 ≤ data.length ∧ 0 < me.quantity then
    (some me, some (data.drop 4))
  else
    (none, some data)

namespace FunctionRs

/-- Embeds the `PublicModbusFunction` enum of `function.rs`, which names
every discriminant in `0..=24` plus `43`. -/
inductive PublicModbusFunction where
  | Invalid
  | ReadCoils
  | ReadDiscreteInputs
  | ReadHoldingRegisters
  | ReadInputRegisters
  | WriteSingleCoil
  | WriteSingleRegister
  | ReadExceptionStatus
  | Diagnostics
  | Program484
  | Poll484
  | GetCommEventCounter
  | GetCommEventLog
  | ProgramController
  | PollController
  | WriteMultipleCoils
  | WriteMultipleregisters
  | ReportServerID
  | Program884M84
  | ResetCommLink
  | ReadFileRecord
  | WriteFileRecord
  | MaskWriteRegister
  | ReadWriteMultipleRegisters
  | ReadFIFOQueue
  | EncapsulatedInterfaceTransport
deriving DecidableEq, Repr

/-- Embeds `PublicModbusFunction::is_public_function` from `function.rs`:
`(0..=24).contains(&code) || code == 43` (the code is a `u8`, so the lower
bound of the range is always met). -/
def PublicModbusFunction.is_public_function (code : Nat) : Bool :=
  code ≤ 24 || code == 43

/-- Embeds the `transmute`-based `PublicModbusFunction::new_unchecked` on
its valid domain (the discriminants `0..=24` and `43`); the fallback arm is
never reached from checked code, which guards with `is_public_function`. -/
def PublicModbusFunction.ofCode (code : Nat) : PublicModbusFunction :=
  match code with
  | 0 => PublicModbusFunction.Invalid
  | 1 => PublicModbusFunction.ReadCoils
  | 2 => PublicModbusFunction.ReadDiscreteInputs
  | 3 => PublicModbusFunction.ReadHoldingRegisters
  | 4 => PublicModbusFunction.ReadInputRegisters
  | 5 => PublicModbusFunction.WriteSingleCoil
  | 6 => PublicModbusFunction.WriteSingleRegister
  | 7 => PublicModbusFunction.ReadExceptionStatus
  | 8 => PublicModbusFunction.Diagnostics
  | 9 => PublicModbusFunction.Program484
  | 10 => PublicModbusFunction.Poll484
  | 11 => PublicModbusFunction.GetCommEventCounter
  | 12 => PublicModbusFunction.GetCommEventLog
  | 13 => PublicModbusFunction.ProgramController
  | 14 => PublicModbusFunction.PollController
  | 15 => PublicModbusFunction.WriteMultipleCoils
  | 16 => PublicModbusFunction.WriteMultipleregisters
  | 17 => PublicModbusFunction.ReportServerID
  | 18 => PublicModbusFunction.Program884M84
  | 19 => PublicModbusFunction.ResetCommLink
  | 20 => PublicModbusFunction.ReadFileRecord
  | 21 => PublicModbusFunction.WriteFileRecord
  | 22 => PublicModbusFunction.MaskWriteRegister
  | 23 => PublicModbusFunction.ReadWriteMultipleRegisters
  | 24 => PublicModbusFunction.ReadFIFOQueue
  | 43 => PublicModbusFunction.EncapsulatedInterfaceTransport
  | _ => PublicModbusFunction.Invalid

/-- Embeds `CustomModbusFunction::is_custom_function` from `function.rs`:
`(65..=72).contains(&code) || (100..=110).contains(&code)`. -/
def CustomModbusFunction.is_custom_function (code : Nat) : Bool :=
  (65 ≤ code && code ≤ 72) || (100 ≤ code && code ≤ 110)

/-- Embeds `OtherModbusFunction::is_other_function` from `function.rs`:
neither public nor custom. -/
def OtherModbusFunction.is_other_function (code : Nat) : Bool :=
  !PublicModbusFunction.is_public_function code
    && !CustomModbusFunction.is_custom_function code

/-- Embeds the three-variant `ModbusFunction` enum of `function.rs`; the
`Custom` and `Other` payload newtypes are represented by their wrapped
byte. -/
inductive ModbusFunction where
  | Public (f : PublicModbusFunction)
  | Custom (code : Nat)
  | Other (code : Nat)
deriving DecidableEq, Repr

/-- Embeds `impl From<u8> for ModbusFunction` in `function.rs`: custom codes
first, then public codes (via the transmuting constructor), then the rest. -/
def ModbusFunction.ofByte (fcode : Nat) : ModbusFunction :=
  if CustomModbusFunction.is_custom_function fcode then
    ModbusFunction.Custom fcode
  else if PublicModbusFunction.is_public_function fcode then
    ModbusFunction.Public (PublicModbusFunction.ofCode fcode)
  else
    ModbusFunction.Other fcode

end FunctionRs

namespace FunctionsRs

/-- Embeds `PublicModbusFunction::is_public_function` generated by the
`public_modbus_function!` macro in `functions.rs`: an early `false` for 0,
then a match over exactly the discriminants listed in the macro invocation
(1-8, 11, 12, 15-17, 20-24 and 43; the arm for 0 generated from the
`Invalid = 0` entry is unreachable behind the early return). -/
def is_public_function (code : Nat) : Bool :=
  if code == 0 then
    false
  else
    code == 0 || code == 1 || code == 2 || code == 3 || code == 4 ||
    code == 5 || code == 6 || code == 7 || code == 8 || code == 11 ||
    code == 12 || code == 15 || code == 16 || code == 17 || code == 20 ||
    code == 21 || code == 22 || code == 23 || code == 24 || code == 43

/-- Embeds `ModbusFunction::is_custom` from `functions.rs` (the newtype
variant): `self.0 >= 65 && self.0 <= 72 || self.0 >= 100 && self.0 <= 110`. -/
def is_custom (code : Nat) : Bool :=
  (65 ≤ code && code ≤ 72) || (100 ≤ code && code ≤ 110)

end FunctionsRs

/-- Embeds the `BitState` enum from `bitstate.rs`. -/
inductive BitState where
  | Off
  | On
deriving DecidableEq, Repr

/-- Embeds `impl TryFrom<u16> for BitState`: only `0x0000` and `0xFF00`
decode; everything else is `InvalidValue`. -/
def BitState.tryFrom (value : Nat) : Except ModbusSerializationError BitState :=
  if value = 0 then
    Except.ok BitState.Off
  else if value = 65280 then
    Except.ok BitState.On
  else
    Except.error ModbusSerializationError.InvalidValue

/-- Embeds `impl Into<u16> for BitState`. -/
def BitState.toWire : BitState → Nat
  | BitState.Off => 0
  | BitState.On => 65280

/-- Embeds `impl Not for BitState`. -/
def BitState.not : BitState → BitState
  | BitState.On => BitState.Off
  | BitState.Off => BitState.On

/-- Helper: a list of length at least 7 splits into seven leading elements
and a tail. -/
theorem cons7_of_length (data : List Nat) (h : 7 ≤ data.length) :
    ∃ a b c d e f g t, data = a :: b :: c :: d :: e :: f :: g :: t := by
  rcases data with _ | ⟨a, _ | ⟨b, _ | ⟨c, _ | ⟨d, _ | ⟨e, _ | ⟨f, _ | ⟨g, t⟩⟩⟩⟩⟩⟩⟩
  all_goals simp only [List.length_cons, List.length_nil] at h
  all_goals first
    | omega
    | exact ⟨a, b, c, d, e, f, g, t, rfl⟩

/-- Helper: a list of length at least 4 splits into four leading elements
and a tail. -/
theorem cons4_of_length (data : List Nat) (h : 4 ≤ data.length) :
    ∃ a b c d t, data = a :: b :: c :: d :: t := by
  rcases data with _ | ⟨a, _ | ⟨b, _ | ⟨c, _ | ⟨d, t⟩⟩⟩⟩
  all_goals simp only [List.length_cons, List.length_nil] at h
  all_goals first
    | omega
    | exact ⟨a, b, c, d, t, rfl⟩

/-- C8: decoding a u16 as a two-state value succeeds exactly for 0x0000
(off) and 0xFF00 (on); every other u16 yields `InvalidValue`; encoding is
the total inverse mapping (decoding the encoding of either state returns
that state); and logical negation flips between the two states. -/
theorem bitstate_two_state_wire (v : Fin 65536) :
    (BitState.tryFrom v.val = Except.ok BitState.Off ↔ v.val = 0) ∧
    (BitState.tryFrom v.val = Except.ok BitState.On ↔ v.val = 65280) ∧
    (BitState.tryFrom v.val = Except.error ModbusSerializationError.InvalidValue ↔
      (v.val ≠ 0 ∧ v.val ≠ 65280)) ∧
    (∀ s : BitState, BitState.tryFrom s.toWire = Except.ok s) ∧
    BitState.not BitState.Off = BitState.On ∧
    BitState.not BitState.On = BitState.Off := by
  refine ⟨?_, ?_, ?_, fun s => by cases s <;> rfl, rfl, rfl⟩
  all_goals unfold BitState.tryFrom
  all_goals split_ifs <;> simp_all

/-- C4 counterexample: the claim fails on both revisions of the predicate.
In `function.rs` the predicate accepts 0 (the claim says 0 is not public),
and in `functions.rs` it rejects 9 (the claim says every code in 1..=24 is
public). -/
theorem is_public_function_claim_cex :
    FunctionRs.PublicModbusFunction.is_public_function 0 = true ∧
    FunctionsRs.is_public_function 9 = false :=
  ⟨rfl, rfl⟩

/-- C4 amended: the `function.rs` predicate holds iff the byte is in
{0,...,24} or equals 43 (so 0 counts as public there), while the
`functions.rs` predicate holds iff the byte is one of the explicitly listed
documented codes {1-8, 11, 12, 15-17, 20-24, 43} (0 and the unlisted codes
9, 10, 13, 14, 18, 19 are not public there). -/
theorem is_public_function_variants (b : Fin 256) :
    (FunctionRs.PublicModbusFunction.is_public_function b.val =
      decide (b.val ≤ 24 ∨ b.val = 43)) ∧
    (FunctionsRs.is_public_function b.val =
      decide (b.val ∈ ([1, 2, 3, 4, 5, 6, 7, 8, 11, 12, 15, 16, 17, 20, 21,
        22, 23, 24, 43] : List Nat))) := by
  revert b
  decide

/-- C7: the `function.rs` classifier is total and deterministic over all 256
byte values; the three range predicates cover every byte and are pairwise
disjoint; the classifier agrees with them (custom wins first, then public,
then other); byte 0 classifies as the distinguished `Public Invalid` value;
and the `functions.rs` newtype predicates are likewise mutually exclusive. -/
theorem classify_partition (b : Fin 256) :
    (FunctionRs.ModbusFunction.ofByte b.val =
        FunctionRs.ModbusFunction.Public (FunctionRs.PublicModbusFunction.ofCode b.val) ↔
      (FunctionRs.CustomModbusFunction.is_custom_function b.val = false ∧
        FunctionRs.PublicModbusFunction.is_public_function b.val = true)) ∧
    (FunctionRs.ModbusFunction.ofByte b.val = FunctionRs.ModbusFunction.Custom b.val ↔
      FunctionRs.CustomModbusFunction.is_custom_function b.val = true) ∧
    (FunctionRs.ModbusFunction.ofByte b.val = FunctionRs.ModbusFunction.Other b.val ↔
      FunctionRs.OtherModbusFunction.is_other_function b.val = true) ∧
    ((FunctionRs.CustomModbusFunction.is_custom_function b.val ||
      FunctionRs.PublicModbusFunction.is_public_function b.val ||
      FunctionRs.OtherModbusFunction.is_other_function b.val) = true) ∧
    ((FunctionRs.CustomModbusFunction.is_custom_function b.val &&
      FunctionRs.PublicModbusFunction.is_public_function b.val) = false) ∧
    ((FunctionRs.CustomModbusFunction.is_custom_function b.val &&
      FunctionRs.OtherModbusFunction.is_other_function b.val) = false) ∧
    ((FunctionRs.PublicModbusFunction.is_public_function b.val &&
      FunctionRs.OtherModbusFunction.is_other_function b.val) = false) ∧
    FunctionRs.ModbusFunction.ofByte 0 =
      FunctionRs.ModbusFunction.Public FunctionRs.PublicModbusFunction.Invalid ∧
    ((FunctionsRs.is_public_function b.val && FunctionsRs.is_custom b.val) = false) := by
  revert b
  decide

/-- C9: when a checked encode operation fails with `InsufficientBuffer`
because the output buffer is smaller than required, the output buffer is
left byte-for-byte unchanged; this covers `write_addr_quantity` and
`WriteMultipleRegisters::write_to_slice`. -/
theorem encode_atomic_on_insufficient_buffer
    (addr quantity : Nat) (w : WriteMultipleRegisters) (out outw : List Nat)
    (h4 : out.length < 4) (hw : outw.length < w.data_size) :
    write_addr_quantity addr quantity out =
      (Except.error (ModbusSerializationError.InsufficientBuffer 4 out.length), out) ∧
    w.write_to_slice outw =
      (Except.error
        (ModbusSerializationError.InsufficientBuffer w.data_size outw.length), outw) := by
  constructor
  · unfold write_addr_quantity
    rw [if_pos h4]
  · unfold WriteMultipleRegisters.write_to_slice
    rw [if_pos hw]

/-- C9 witness: concrete failing encodes leave the buffers unchanged. -/
theorem encode_atomic_on_insufficient_buffer_witness :
    write_addr_quantity 10 20 [9, 9, 9] =
      (Except.error (ModbusSerializationError.InsufficientBuffer 4 3), [9, 9, 9]) ∧
    (WriteMultipleRegisters.mk 1 ⟨[0, 10, 1, 2]⟩).write_to_slice
        [0, 0, 0, 0, 0, 0, 0, 0, 0] =
      (Except.error (ModbusSerializationError.InsufficientBuffer 10 9),
        [0, 0, 0, 0, 0, 0, 0, 0, 0]) :=
  encode_atomic_on_insufficient_buffer 10 20
    (WriteMultipleRegisters.mk 1 ⟨[0, 10, 1, 2]⟩)
    [9, 9, 9] [0, 0, 0, 0, 0, 0, 0, 0, 0] (by decide) (by decide)

/-- C2 counterexample: with 123 registers and address `0xFFFF - 122`
(65413), construction yields `Overflow`, not success: the code rejects
every `addr` with `addr + quantity > 0xFFFF`, and `65413 + 123 = 65536`. -/
theorem wmr_new_boundary_cex :
    WriteMultipleRegisters.new 65413 ⟨List.replicate 246 0⟩ =
      Except.error ModbusSerializationError.Overflow := by
  rfl

/-- C2 amended: a register quantity of 0 yields `Invalid`; quantity 124
yields `TooLarge`; quantity 123 succeeds with `addr = 0xFFFF - 123`
(65412), the largest address the code accepts there, while `addr = 65413`
with quantity 123 yields `Overflow`; and `addr = 0xFFFE` with quantity 3
yields `Overflow`. -/
theorem wmr_new_boundaries (addr : Fin 65536) (regs : RegisterSlice) :
    (regs.len = 0 →
      WriteMultipleRegisters.new addr.val regs =
        Except.error ModbusSerializationError.Invalid) ∧
    (regs.len = 124 →
      WriteMultipleRegisters.new addr.val regs =
        Except.error ModbusSerializationError.TooLarge) ∧
    (regs.len = 123 →
      WriteMultipleRegisters.new 65412 regs = Except.ok ⟨65412, regs⟩) ∧
    (regs.len = 123 →
      WriteMultipleRegisters.new 65413 regs =
        Except.error ModbusSerializationError.Overflow) ∧
    (regs.len = 3 →
      WriteMultipleRegisters.new 65534 regs =
        Except.error ModbusSerializationError.Overflow) := by
  unfold WriteMultipleRegisters.new
  refine ⟨fun h => ?_, fun h => ?_, fun h => ?_, fun h => ?_, fun h => ?_⟩
  all_goals simp [h]

/-- C2 witness: the boundary outcomes at concrete inputs. -/
theorem wmr_new_boundaries_witness :
    WriteMultipleRegisters.new 7 ⟨[]⟩ =
      Except.error ModbusSerializationError.Invalid ∧
    WriteMultipleRegisters.new 7 ⟨List.replicate 248 0⟩ =
      Except.error ModbusSerializationError.TooLarge ∧
    WriteMultipleRegisters.new 65412 ⟨List.replicate 246 0⟩ =
      Except.ok ⟨65412, ⟨List.replicate 246 0⟩⟩ ∧
    WriteMultipleRegisters.new 65534 ⟨[0, 1, 2, 3, 4, 5]⟩ =
      Except.error ModbusSerializationError.Overflow :=
  ⟨(wmr_new_boundaries ⟨7, by decide⟩ ⟨[]⟩).1 (by decide),
   (wmr_new_boundaries ⟨7, by decide⟩ ⟨List.replicate 248 0⟩).2.1 (by decide),
   (wmr_new_boundaries ⟨7, by decide⟩ ⟨List.replicate 246 0⟩).2.2.1 (by decide),
   (wmr_new_boundaries ⟨7, by decide⟩ ⟨[0, 1, 2, 3, 4, 5]⟩).2.2.2.2 (by decide)⟩

/-- C3 counterexample: the `requests/read.rs` parser accepts an input whose
quantity field is zero, producing a request with quantity 0 instead of
rejecting it. -/
theorem read_request_zero_quantity_cex :
    ReadRequest.from_data [0, 0, 0, 0] = Except.ok (⟨0, 0⟩, []) :=
  rfl

/-- C3 amended: the two revisions of the read family disagree.  The
`requests/read.rs` parser (`from_data`) fails with `UnexpectedEOF{4, len}`
on fewer than 4 bytes but performs no quantity check, succeeding on every
input of at least 4 bytes, including quantity 0; the `request/read.rs`
parser (`from_modbus_data`) never produces a request with quantity 0, and
on fewer than 4 bytes returns no request and the whole input as tail
rather than an `UnexpectedEOF` error. -/
theorem read_request_parse_variants (data : List Nat) :
    (data.length < 4 →
      ReadRequest.from_data data =
        Except.error (ModbusSerializationError.UnexpectedEOF 4 data.length)) ∧
    (4 ≤ data.length →
      ReadRequest.from_data data =
        Except.ok (⟨u16_from_be (data.getD 0 0) (data.getD 1 0),
          u16_from_be (data.getD 2 0) (data.getD 3 0)⟩, data.drop 4)) ∧
    (∀ r, (ReadRequest.from_modbus_data data).1 = some r → 0 < r.quantity) ∧
    (data.length < 4 → ReadRequest.from_modbus_data data = (none, some data)) := by
  refine ⟨fun h => ?_, fun h => ?_, fun r hr => ?_, fun h => ?_⟩
  · unfold ReadRequest.from_data
    rw [if_pos h]
  · obtain ⟨a, b, c, d, t, rfl⟩ := cons4_of_length data h
    simp [ReadRequest.from_data, read_addr_quantity_unchecked, read_u16_unchecked]
  · unfold ReadRequest.from_modbus_data at hr
    by_cases hc : 4 ≤ data.length ∧
        0 < u16_from_be (data.getD 2 0) (data.getD 3 0)
    · rw [if_pos hc] at hr
      simp only [Option.some.injEq] at hr
      rw [← hr]
      exact hc.2
    · rw [if_neg hc] at hr
      simp at hr
  · unfold ReadRequest.from_modbus_data
    rw [if_neg]
    intro hc
    omega

/-- Helper for the write-multiple-registers round trip: for a valid address
and register payload, the checked encoder fills a buffer of exactly the
required size with the expected frame, and the parser recovers the request
from the frame without its function-code byte. -/
theorem wmr_encode_decode (addr : Nat) (regs : List Nat)
    (haddr : addr < 65536)
    (heven : regs.length % 2 = 0)
    (hq1 : 1 ≤ regs.length / 2)
    (hq2 : regs.length / 2 ≤ 123)
    (hov : addr + regs.length / 2 ≤ 65535) :
    (WriteMultipleRegisters.mk addr ⟨regs⟩).write_to_slice
        (List.replicate (6 + regs.length) 0) =
      (Except.ok (),
        16 :: (addr / 256) :: (addr % 256) :: 0 :: (regs.length / 2) ::
          regs.length :: regs) ∧
    WriteMultipleRegisters.from_data
        ((addr / 256) :: (addr % 256) :: 0 :: (regs.length / 2) ::
          regs.length :: regs) =
      Except.ok (WriteMultipleRegisters.mk addr ⟨regs⟩) := by
  have h2 : 2 ≤ regs.length := by omega
  have h246 : regs.length ≤ 246 := by omega
  have e1 : addr % 65536 = addr := Nat.mod_eq_of_lt haddr
  have e2 : regs.length / 2 % 65536 = regs.length / 2 := Nat.mod_eq_of_lt (by omega)
  have e3 : regs.length % 256 = regs.length := Nat.mod_eq_of_lt (by omega)
  have e4 : regs.length / 2 / 256 = 0 := Nat.div_eq_of_lt (by omega)
  have e5 : regs.length / 2 % 256 = regs.length / 2 := Nat.mod_eq_of_lt (by omega)
  have hrep : List.replicate (6 + regs.length) (0 : Nat) =
      0 :: 0 :: 0 :: 0 :: 0 :: 0 :: List.replicate regs.length 0 := by
    rw [Nat.add_comm]
    rfl
  constructor
  · unfold WriteMultipleRegisters.write_to_slice
    rw [if_neg (by
      simp only [List.length_replicate, WriteMultipleRegisters.data_size,
        WriteMultipleRegisters.HEADER_SIZE, RegisterSlice.bytes_len]
      omega)]
    unfold WriteMultipleRegisters.write_to_slice_unchecked copyFromSlice
    rw [hrep]
    simp only [WriteMultipleRegisters.FUNCTION_CODE, WriteMultipleRegisters.HEADER_SIZE,
      RegisterSlice.len, RegisterSlice.bytes_len, u16_to_be_hi, u16_to_be_lo, List.set]
    simp only [e1, e2, e3, e4, e5]
    rw [List.drop_eq_nil_of_le (by
      simp only [List.length_cons, List.length_replicate]
      omega)]
    simp
  · simp only [WriteMultipleRegisters.from_data, WriteMultipleRegisters.from_data_unchecked,
      WriteMultipleRegisters.MIN_INPUT_SIZE, WriteMultipleRegisters.HEADER_SIZE,
      read_u16_unchecked, u16_from_be,
      List.getD_cons_succ, List.getD_cons_zero, List.length_cons]
    rw [if_neg (by omega)]
    have hd1 : List.drop 2 (addr / 256 :: addr % 256 :: 0 :: regs.length / 2 ::
        regs.length :: regs) = 0 :: regs.length / 2 :: regs.length :: regs := rfl
    have hd2 : List.drop 2 (List.drop 2 (addr / 256 :: addr % 256 :: 0 ::
        regs.length / 2 :: regs.length :: regs)) = regs.length :: regs := rfl
    rw [hd2, hd1]
    simp only [List.getD_cons_succ, List.getD_cons_zero]
    rw [if_neg (by omega)]
    have hsome : sliceRange (regs.length :: regs) 1 (regs.length + 1) = some regs := by
      unfold sliceRange
      rw [if_pos (by simp only [List.length_cons]; omega)]
      simp
    rw [hsome]
    show (match RegisterSlice.new regs with
      | Except.ok registers =>
          WriteMultipleRegisters.new (addr / 256 * 256 + addr % 256) registers
      | Except.error err => Except.error err) =
        Except.ok { addr := addr, registers := { bytes := regs } }
    have hreg : RegisterSlice.new regs = Except.ok ⟨regs⟩ := by
      unfold RegisterSlice.new
      rw [if_pos heven]
    rw [hreg]
    show WriteMultipleRegisters.new (addr / 256 * 256 + addr % 256) ⟨regs⟩ =
      Except.ok { addr := addr, registers := { bytes := regs } }
    have haeq : addr / 256 * 256 + addr % 256 = addr := by omega
    rw [haeq]
    unfold WriteMultipleRegisters.new
    rw [if_neg (by simp only [RegisterSlice.len]; omega),
      if_neg (by simp only [RegisterSlice.len]; omega),
      if_neg (by simp only [RegisterSlice.len]; omega)]

/-- C1: round-trip law for write-multiple-registers.  For every address and
register payload with quantity in [1, 123] and `addr + quantity ≤ 0xFFFF`,
decoding the encoding (dropping the function-code byte the encoder
prepends) reproduces the original address and register words exactly; and
the concrete bytes [0, 1, 0, 2, 4, 0, 0x0A, 1, 2] parse to address 1 and
register words [0x000A, 0x0102], with re-encoding reproducing those 9 bytes
behind the function-code byte 16. -/
theorem wmr_roundtrip (addr : Nat) (regs : List Nat)
    (haddr : addr < 65536)
    (heven : regs.length % 2 = 0)
    (hq1 : 1 ≤ regs.length / 2)
    (hq2 : regs.length / 2 ≤ 123)
    (hov : addr + regs.length / 2 ≤ 65535) :
    WriteMultipleRegisters.from_data
        (((WriteMultipleRegisters.mk addr ⟨regs⟩).write_to_slice
          (List.replicate (6 + regs.length) 0)).2.drop 1) =
      Except.ok (WriteMultipleRegisters.mk addr ⟨regs⟩) ∧
    ((WriteMultipleRegisters.mk addr ⟨regs⟩).write_to_slice
        (List.replicate (6 + regs.length) 0)).1 = Except.ok () ∧
    WriteMultipleRegisters.from_data [0, 1, 0, 2, 4, 0, 10, 1, 2] =
      Except.ok (WriteMultipleRegisters.mk 1 ⟨[0, 10, 1, 2]⟩) ∧
    (RegisterSlice.mk [0, 10, 1, 2]).get 0 = some 10 ∧
    (RegisterSlice.mk [0, 10, 1, 2]).get 1 = some 258 ∧
    (WriteMultipleRegisters.mk 1 ⟨[0, 10, 1, 2]⟩).write_to_slice
        (List.replicate 10 0) =
      (Except.ok (), [16, 0, 1, 0, 2, 4, 0, 10, 1, 2]) := by
  obtain ⟨henc, hdec⟩ := wmr_encode_decode addr regs haddr heven hq1 hq2 hov
  refine ⟨?_, ?_, rfl, rfl, rfl, rfl⟩
  · rw [henc]
    exact hdec
  · rw [henc]

/-- C1 witness: the round trip at address 1 with register bytes
[0, 10, 1, 2]. -/
theorem wmr_roundtrip_witness :
    WriteMultipleRegisters.from_data
        (((WriteMultipleRegisters.mk 1 ⟨[0, 10, 1, 2]⟩).write_to_slice
          (List.replicate (6 + ([0, 10, 1, 2] : List Nat).length) 0)).2.drop 1) =
      Except.ok (WriteMultipleRegisters.mk 1 ⟨[0, 10, 1, 2]⟩) :=
  (wmr_roundtrip 1 [0, 10, 1, 2] (by decide) (by decide) (by decide)
    (by decide) (by decide)).1

/-- C5: for every input of length at least 7 whose declared byte-count
field, divided by 2 with truncation, differs from the quantity field,
parsing yields `Ambivalent`, before any attempt to slice the declared
payload and regardless of how many payload bytes actually follow. -/
theorem wmr_ambivalent (data : List Nat)
    (h7 : 7 ≤ data.length)
    (hne : data.getD 4 0 / 2 ≠ u16_from_be (data.getD 2 0) (data.getD 3 0)) :
    WriteMultipleRegisters.from_data data =
      Except.error ModbusSerializationError.Ambivalent := by
  obtain ⟨a, b, c, d, e, f, g, t, rfl⟩ := cons7_of_length data h7
  simp only [List.getD_cons_succ, List.getD_cons_zero, u16_from_be] at hne
  simp only [WriteMultipleRegisters.from_data, WriteMultipleRegisters.from_data_unchecked,
    WriteMultipleRegisters.MIN_INPUT_SIZE, read_u16_unchecked, u16_from_be,
    List.getD_cons_succ, List.getD_cons_zero, List.length_cons]
  rw [if_neg (by omega)]
  show (if e / 2 ≠ c * 256 + d then Except.error ModbusSerializationError.Ambivalent
    else _) = _
  rw [if_pos hne]

/-- C5 witness: a declared byte count of 3 against a quantity field of 200
is rejected as `Ambivalent` even though only 2 payload bytes follow. -/
theorem wmr_ambivalent_witness :
    WriteMultipleRegisters.from_data [0, 0, 0, 200, 3, 0, 0] =
      Except.error ModbusSerializationError.Ambivalent :=
  wmr_ambivalent [0, 0, 0, 200, 3, 0, 0] (by decide) (by decide)

/-- C6: when the byte-count field agrees with the quantity field but fewer
payload bytes follow than declared (input length below byteCount + 5), the
parse fails with `UnexpectedEOF` whose `expected` field is the declared
byte count plus the header size minus the function-code byte
(byteCount + 5) and whose `got` field is the full input length. -/
theorem wmr_eof_full_frame (data : List Nat)
    (h7 : 7 ≤ data.length)
    (hagree : data.getD 4 0 / 2 = u16_from_be (data.getD 2 0) (data.getD 3 0))
    (hshort : data.length < data.getD 4 0 + 5) :
    WriteMultipleRegisters.from_data data =
      Except.error (ModbusSerializationError.UnexpectedEOF
        (data.getD 4 0 + 5) data.length) := by
  obtain ⟨a, b, c, d, e, f, g, t, rfl⟩ := cons7_of_length data h7
  simp only [List.getD_cons_succ, List.getD_cons_zero, u16_from_be] at hagree hshort
  simp only [List.length_cons] at hshort
  simp only [WriteMultipleRegisters.from_data, WriteMultipleRegisters.from_data_unchecked,
    WriteMultipleRegisters.MIN_INPUT_SIZE, WriteMultipleRegisters.HEADER_SIZE,
    read_u16_unchecked, u16_from_be,
    List.getD_cons_succ, List.getD_cons_zero, List.length_cons]
  rw [if_neg (by omega)]
  show (if e / 2 ≠ c * 256 + d then Except.error ModbusSerializationError.Ambivalent
    else _) = _
  rw [if_neg (by omega)]
  have hd : List.drop 2 (List.drop 2 (a :: b :: c :: d :: e :: f :: g :: t)) =
      e :: f :: g :: t := rfl
  rw [hd]
  simp only [List.getD_cons_zero, List.length_cons]
  have hnone : sliceRange (e :: f :: g :: t) 1 (e + 1) = none := by
    unfold sliceRange
    rw [if_neg]
    intro hc
    simp only [List.length_cons] at hc
    omega
  rw [hnone]
  simp only [Except.error.injEq, ModbusSerializationError.UnexpectedEOF.injEq]
  constructor <;> omega

/-- C6 witness: a declared byte count of 8 with quantity 4 and only 2
payload bytes fails with `UnexpectedEOF{expected: 13, got: 7}`. -/
theorem wmr_eof_full_frame_witness :
    WriteMultipleRegisters.from_data [0, 0, 0, 4, 8, 0, 0] =
      Except.error (ModbusSerializationError.UnexpectedEOF 13 7) :=
  wmr_eof_full_frame [0, 0, 0, 4, 8, 0, 0] (by decide) (by decide) (by decide)

/-- C10: when the declared byte count is odd and equals 2 * quantity + 1,
and at least byteCount + 1 bytes follow the quantity field, the truncating
division makes the consistency check pass (no `Ambivalent`), and the parse
instead fails with `Invalid`, raised when the register view is constructed
over the odd-length payload slice. -/
theorem wmr_odd_bytecount_invalid (data : List Nat)
    (h7 : 7 ≤ data.length)
    (hodd : data.getD 4 0 = 2 * u16_from_be (data.getD 2 0) (data.getD 3 0) + 1)
    (hlen : data.getD 4 0 + 5 ≤ data.length) :
    WriteMultipleRegisters.from_data data =
      Except.error ModbusSerializationError.Invalid := by
  obtain ⟨a, b, c, d, e, f, g, t, rfl⟩ := cons7_of_length data h7
  simp only [List.getD_cons_succ, List.getD_cons_zero, u16_from_be] at hodd hlen
  simp only [List.length_cons] at hlen
  simp only [WriteMultipleRegisters.from_data, WriteMultipleRegisters.from_data_unchecked,
    WriteMultipleRegisters.MIN_INPUT_SIZE, WriteMultipleRegisters.HEADER_SIZE,
    read_u16_unchecked, u16_from_be,
    List.getD_cons_succ, List.getD_cons_zero, List.length_cons]
  rw [if_neg (by omega)]
  show (if e / 2 ≠ c * 256 + d then Except.error ModbusSerializationError.Ambivalent
    else _) = _
  rw [if_neg (by omega)]
  have hd : List.drop 2 (List.drop 2 (a :: b :: c :: d :: e :: f :: g :: t)) =
      e :: f :: g :: t := rfl
  rw [hd]
  simp only [List.getD_cons_zero, List.length_cons]
  have hsome : sliceRange (e :: f :: g :: t) 1 (e + 1) =
      some ((f :: g :: t).take e) := by
    unfold sliceRange
    rw [if_pos (by simp only [List.length_cons]; omega)]
    simp
  rw [hsome]
  show (match RegisterSlice.new (List.take e (f :: g :: t)) with
    | Except.ok registers => WriteMultipleRegisters.new (a * 256 + b) registers
    | Except.error err => Except.error err) =
      Except.error ModbusSerializationError.Invalid
  have hreg : RegisterSlice.new (List.take e (f :: g :: t)) =
      Except.error ModbusSerializationError.Invalid := by
    unfold RegisterSlice.new
    rw [if_neg]
    simp only [List.length_take, List.length_cons]
    omega
  rw [hreg]

/-- C10 witness: quantity 1 with declared byte count 3 and 3 payload bytes
passes the truncating consistency check and fails with `Invalid`. -/
theorem wmr_odd_bytecount_invalid_witness :
    WriteMultipleRegisters.from_data [0, 0, 0, 1, 3, 9, 9, 9] =
      Except.error ModbusSerializationError.Invalid :=
  wmr_odd_bytecount_invalid [0, 0, 0, 1, 3, 9, 9, 9] (by decide) (by decide)
    (by decide)

/-- C3 witness: concrete outcomes for each clause of the amended claim. -/
theorem read_request_parse_variants_witness :
    ReadRequest.from_data [5] =
      Except.error (ModbusSerializationError.UnexpectedEOF 4 1) ∧
    ReadRequest.from_data [0, 1, 0, 2, 9] = Except.ok (⟨1, 2⟩, [9]) ∧
    ReadRequest.from_modbus_data [5] = (none, some [5]) :=
  ⟨(read_request_parse_variants [5]).1 (by decide),
   (read_request_parse_variants [0, 1, 0, 2, 9]).2.1 (by decide),
   (read_request_parse_variants [5]).2.2.2 (by decide)⟩

end Modbius
